import Mathlib

/-!
Verification of the bluetooth-scanner repository's specification.

The repository ships examples and unit tests (`src/bluetooth_examples.py`);
the `BluetoothScanner` class itself (module `bluetooth_scanner`) is imported
by those files but its source is not present.  The definitions below are
therefore modelled from the specification's description of the scanner
(sections 3, 4.1, 6 and 7 of the spec), constrained by the expectations the
unit tests state.
-/

/-- Modelled from the spec: a discovered-device record.  The spec (section 3)
lists fields address, name, deviceType, deviceClassLabel and services; the
persisted object (section 6) has at least `name`, `address`, `type` keys.
Service descriptors are abstracted as strings. -/
structure Device where
  name : String
  address : String
  type : String
  deviceClass : String
  services : List String
  deriving DecidableEq, Repr

/-- Modelled from the spec: the scanner state.  `discovered_devices` is the
device mapping keyed by address (an association list, mirroring a Python
dict's insertion order); `scanning` is the idle/scanning flag; the
constructor arguments `scan_duration` and `lookup_names` are stored. -/
structure Scanner where
  scan_duration : Nat
  lookup_names : Bool
  discovered_devices : List (String × Device)
  scanning : Bool
  deriving DecidableEq, Repr

/-- Modelled from the spec: default constructor configuration values
(the spec does not pin the exact defaults; construction with no arguments
must succeed). -/
def defaultScanDuration : Nat := 8

/-- Modelled from the spec: default value of the name-lookup flag. -/
def defaultLookupNames : Bool := true

/-- Modelled from the spec: the `BluetoothScanner(scan_duration, lookup_names)`
constructor: stores the configuration, starts with an empty device mapping
and the scanning flag off. -/
def initScanner (scan_duration : Nat) (lookup_names : Bool) : Scanner :=
  { scan_duration := scan_duration
    lookup_names := lookup_names
    discovered_devices := []
    scanning := false }

/-- Modelled from the spec: `BluetoothScanner()` with no arguments, using the
default configuration values. -/
def initScannerDefault : Scanner :=
  initScanner defaultScanDuration defaultLookupNames

/-- Modelled from the spec: `decode_device_class`.  `None` maps to
"Unknown"; otherwise the high byte (major device class) is masked and
matched against the fixed table 0x00 Miscellaneous, 0x01 Computer,
0x02 Phone, 0x04 Audio/Video; anything else yields a diagnostic label
containing "Unknown" and the raw value. -/
def decodeDeviceClass : Option Nat → String
  | none => "Unknown"
  | some raw =>
    let major := raw / 256 % 256
    if major = 0 then "Miscellaneous"
    else if major = 1 then "Computer"
    else if major = 2 then "Phone"
    else if major = 4 then "Audio/Video"
    else "Unknown (" ++ toString raw ++ ")"

/-- Modelled from the spec: the method form of `decode_device_class`; a pure
method, so the returned scanner state is the receiver unchanged. -/
def Scanner.decode_device_class (s : Scanner) (raw : Option Nat) :
    String × Scanner :=
  (decodeDeviceClass raw, s)

/-- Modelled from the spec: the three capabilities consumed from the external
discovery library (section 6).  Each may fail, modelled by `Except` with a
string error message.  `lookup_device_class` may also report the class as
absent (`none`). -/
structure BTEnv where
  discover_devices : Nat → Bool → Except String (List (String × String))
  lookup_device_class : String → Except String (Option Nat)
  find_service : String → Except String (List String)

/-- Console notices emitted by the scanner.  The spec states the exact text
is illustrative, not contractual, so notices are modelled abstractly. -/
inductive Notice where
  | scanError (msg : String)
  | noDevicesFound
  | foundDevice (address : String)
  | statsNoDevices
  | statsTotal (n : Nat)
  | statsTypeCount (t : String) (n : Nat)
  deriving DecidableEq, Repr

/-- Modelled from the spec: per-device best-effort info from
`get_device_info(address)`: class label and service list, each degraded
("Unknown" / empty list) when the underlying external call fails. -/
structure DeviceInfo where
  cls : String
  services : List String
  deriving DecidableEq, Repr

/-- Modelled from the spec: `get_device_info(address)` — best-effort lookup
of class and services for a single address; a failing underlying call
degrades that part of the result instead of propagating. -/
def getDeviceInfo (env : BTEnv) (address : String) : DeviceInfo :=
  { cls :=
      match env.lookup_device_class address with
      | Except.ok c => decodeDeviceClass c
      | Except.error _ => "Unknown"
    services :=
      match env.find_service address with
      | Except.ok l => l
      | Except.error _ => [] }

/-- Insert or update an entry of the device mapping: rediscovery overwrites
the existing entry in place, a new address is appended (Python dict
semantics). -/
def insertDevice (m : List (String × Device)) (k : String) (v : Device) :
    List (String × Device) :=
  if m.any (fun p => p.1 = k) then
    m.map (fun p => if p.1 = k then (k, v) else p)
  else m ++ [(k, v)]

/-- Modelled from the spec: `scan_classic_bluetooth()`.  Calls the external
discovery primitive with the configured duration and name-lookup flag.
On failure the error is reported and the mapping is left unchanged; on an
empty result a no-devices notice is emitted; otherwise every returned
(address, name) pair is looked up, decoded, and inserted/updated with
type "Classic".  The function is total: no exception escapes; the
scanning flag is off again on return. -/
def scanClassic (env : BTEnv) (s : Scanner) : Scanner × List Notice :=
  match env.discover_devices s.scan_duration s.lookup_names with
  | Except.error e => ({ s with scanning := false }, [Notice.scanError e])
  | Except.ok [] => ({ s with scanning := false }, [Notice.noDevicesFound])
  | Except.ok devs =>
    let s2 := devs.foldl
      (fun acc p =>
        let info := getDeviceInfo env p.1
        { acc with
          discovered_devices := insertDevice acc.discovered_devices p.1
            { name := p.2
              address := p.1
              type := "Classic"
              deviceClass := info.cls
              services := info.services } })
      s
    ({ s2 with scanning := false }, devs.map (fun p => Notice.foundDevice p.1))

/-- Modelled from the spec: `display_statistics()` — empty mapping yields the
empty-state notice, otherwise the total count and a breakdown by device
type. -/
def displayStatistics (s : Scanner) : List Notice :=
  if s.discovered_devices.isEmpty then [Notice.statsNoDevices]
  else
    let types := (s.discovered_devices.map (fun p => p.2.type)).eraseDups
    Notice.statsTotal s.discovered_devices.length ::
      types.map (fun t =>
        Notice.statsTypeCount t
          ((s.discovered_devices.filter (fun p => p.2.type = t)).length))

/-- A JSON value, as produced by serializing the device mapping.  Only the
constructors the scanner's output needs are modelled. -/
inductive Json where
  | str : String → Json
  | arr : List Json → Json
  | obj : List (String × Json) → Json

/-- Serialize one device record as a JSON object (spec section 6: at least
`name`, `address`, `type` keys). -/
def encodeDevice (d : Device) : Json :=
  Json.obj
    [("name", Json.str d.name),
     ("address", Json.str d.address),
     ("type", Json.str d.type),
     ("class", Json.str d.deviceClass),
     ("services", Json.arr (d.services.map Json.str))]

/-- Serialize the device mapping as a JSON object keyed by address. -/
def encodeMapping (m : List (String × Device)) : Json :=
  Json.obj (m.map (fun p => (p.1, encodeDevice p.2)))

/-- Read a JSON string value. -/
def asStr : Json → Option String
  | Json.str s => some s
  | _ => none

/-- Parse a list of JSON string values. -/
def decodeStrList : List Json → Option (List String)
  | [] => some []
  | j :: js =>
    match asStr j, decodeStrList js with
    | some s, some l => some (s :: l)
    | _, _ => none

/-- Parse one device record back from JSON. -/
def decodeDevice : Json → Option Device
  | Json.obj fields => do
    let n ← (List.lookup "name" fields).bind asStr
    let a ← (List.lookup "address" fields).bind asStr
    let t ← (List.lookup "type" fields).bind asStr
    let c ← (List.lookup "class" fields).bind asStr
    let svcsJson ← List.lookup "services" fields
    let svcs ← match svcsJson with
      | Json.arr l => decodeStrList l
      | _ => none
    some { name := n, address := a, type := t, deviceClass := c,
           services := svcs }
  | _ => none

/-- Parse the entries of a device-mapping JSON object. -/
def decodeEntries : List (String × Json) → Option (List (String × Device))
  | [] => some []
  | p :: ps =>
    match decodeDevice p.2, decodeEntries ps with
    | some d, some rest => some ((p.1, d) :: rest)
    | _, _ => none

/-- Parse a device mapping back from JSON. -/
def decodeMapping : Json → Option (List (String × Device))
  | Json.obj fields => decodeEntries fields
  | _ => none

/-- The file system, as far as `save_results` is concerned: a mapping from
paths to JSON contents.  Writing prepends, reading takes the newest entry,
so writing overwrites any existing file at the path. -/
def FileSystem : Type := List (String × Json)

/-- Modelled from the spec: `save_results(path)` serializes the device
mapping to JSON at `path`, overwriting any existing file. -/
def saveResults (s : Scanner) (path : String) (fs : FileSystem) :
    FileSystem :=
  (path, encodeMapping s.discovered_devices) :: fs

/-- Read the JSON contents of the file at `path`. -/
def readFile (fs : FileSystem) (path : String) : Option Json :=
  List.lookup path fs

-- Helper lemmas

theorem decodeStrList_map_str (l : List String) :
    decodeStrList (l.map Json.str) = some l := by
  induction l with
  | nil => rfl
  | cons x xs ih => simp [decodeStrList, asStr, ih]

theorem decodeDevice_encodeDevice (d : Device) :
    decodeDevice (encodeDevice d) = some d := by
  cases d
  simp [encodeDevice, decodeDevice, List.lookup, asStr, decodeStrList_map_str]

theorem decodeMapping_encodeMapping (m : List (String × Device)) :
    decodeMapping (encodeMapping m) = some m := by
  induction m with
  | nil => rfl
  | cons p ps ih =>
    simp only [encodeMapping, List.map_cons, decodeMapping, decodeEntries,
      decodeDevice_encodeDevice]
    simp only [encodeMapping, decodeMapping] at ih
    simp [ih]

-- Concrete environments and states used by witnesses and counterexamples

/-- An external library in which every capability fails. -/
def envErr : BTEnv where
  discover_devices := fun _ _ => Except.error "Bluetooth not available"
  lookup_device_class := fun _ => Except.error "Error"
  find_service := fun _ => Except.error "Error"

/-- An external library whose discovery returns no devices. -/
def envNoDevices : BTEnv where
  discover_devices := fun _ _ => Except.ok []
  lookup_device_class := fun _ => Except.ok none
  find_service := fun _ => Except.ok []

/-- An external library whose discovery returns the single test device with
class 0x0100 (Computer). -/
def envOneDevice : BTEnv where
  discover_devices := fun _ _ => Except.ok [("AA:BB:CC:DD:EE:FF", "Test Device")]
  lookup_device_class := fun _ => Except.ok (some 0x0100)
  find_service := fun _ => Except.ok ["Test Service"]

/-- A device record left over from an earlier scan. -/
def deviceOld : Device where
  name := "Old Device"
  address := "11:22:33:44:55:66"
  type := "Classic"
  deviceClass := "Unknown"
  services := []

/-- A scanner that already holds one discovered device. -/
def scannerWithOld : Scanner where
  scan_duration := 5
  lookup_names := true
  discovered_devices := [("11:22:33:44:55:66", deviceOld)]
  scanning := false

-- Claim theorems

/-- Claim C1: decodeDeviceClass maps absent input and the fixed major-class
table exactly: None to "Unknown", 0x0000 to "Miscellaneous", 0x0100 to
"Computer", 0x0200 to "Phone", 0x0400 to "Audio/Video". -/
theorem C1_decode_device_class_table :
    decodeDeviceClass none = "Unknown" ∧
    decodeDeviceClass (some 0x0000) = "Miscellaneous" ∧
    decodeDeviceClass (some 0x0100) = "Computer" ∧
    decodeDeviceClass (some 0x0200) = "Phone" ∧
    decodeDeviceClass (some 0x0400) = "Audio/Video" :=
  ⟨rfl, rfl, rfl, rfl, rfl⟩

/-- Claim C2: if the external discovery call fails during scanClassic, the
device mapping is unchanged from its pre-call state and an error notice is
emitted.  No exception escapes: `scanClassic` is a total function returning
a state and notices for every environment. -/
theorem C2_scan_error_preserves_mapping (env : BTEnv) (s : Scanner)
    (e : String)
    (h : env.discover_devices s.scan_duration s.lookup_names =
      Except.error e) :
    (scanClassic env s).1.discovered_devices = s.discovered_devices ∧
    Notice.scanError e ∈ (scanClassic env s).2 := by
  simp [scanClassic, h]

/-- Witness for C2 at a concrete failing environment. -/
theorem C2_scan_error_witness :
    (envErr.discover_devices (initScanner 5 true).scan_duration
        (initScanner 5 true).lookup_names =
      Except.error "Bluetooth not available") ∧
    ((scanClassic envErr (initScanner 5 true)).1.discovered_devices =
        (initScanner 5 true).discovered_devices ∧
      Notice.scanError "Bluetooth not available" ∈
        (scanClassic envErr (initScanner 5 true)).2) :=
  ⟨rfl, C2_scan_error_preserves_mapping envErr (initScanner 5 true)
    "Bluetooth not available" rfl⟩

/-- Claim C3: for every device mapping, saving to a path and parsing the
file at that path back yields a mapping equal to the in-memory device
mapping at save time. -/
theorem C3_save_results_roundtrip (s : Scanner) (path : String)
    (fs : FileSystem) :
    (readFile (saveResults s path fs) path).bind decodeMapping =
      some s.discovered_devices := by
  simp [readFile, saveResults, List.lookup, decodeMapping_encodeMapping]

/-- Claim C5 (amended): starting from an empty device mapping, if discovery
returns an empty list then after scanClassic the mapping is empty and a
no-devices notice was emitted. -/
theorem C5_scan_no_devices_fresh (env : BTEnv) (s : Scanner)
    (hpre : s.discovered_devices = [])
    (h : env.discover_devices s.scan_duration s.lookup_names =
      Except.ok []) :
    (scanClassic env s).1.discovered_devices = [] ∧
    Notice.noDevicesFound ∈ (scanClassic env s).2 := by
  simp [scanClassic, h, hpre]

/-- Witness for C5 at a concrete empty-result environment. -/
theorem C5_scan_no_devices_witness :
    ((initScanner 5 true).discovered_devices = [] ∧
      envNoDevices.discover_devices (initScanner 5 true).scan_duration
        (initScanner 5 true).lookup_names = Except.ok []) ∧
    ((scanClassic envNoDevices (initScanner 5 true)).1.discovered_devices =
        [] ∧
      Notice.noDevicesFound ∈
        (scanClassic envNoDevices (initScanner 5 true)).2) :=
  ⟨⟨rfl, rfl⟩, C5_scan_no_devices_fresh envNoDevices (initScanner 5 true)
    rfl rfl⟩

/-- Counterexample to C5 as stated: on a scanner that already holds a device,
a scan whose discovery returns the empty list leaves the mapping non-empty
(entries are never destroyed by a scan), so "the device mapping is empty"
fails without the empty-pre-state assumption. -/
theorem C5_counterexample_prior_entry :
    envNoDevices.discover_devices scannerWithOld.scan_duration
        scannerWithOld.lookup_names = Except.ok [] ∧
    (scanClassic envNoDevices scannerWithOld).1.discovered_devices ≠ [] :=
  ⟨rfl, by decide⟩

/-- Claim C7: when both underlying lookups fail for an address,
getDeviceInfo returns the degraded record: class "Unknown" and empty
services.  It is a total function, so the failure never propagates. -/
theorem C7_get_device_info_degraded (env : BTEnv) (address e1 e2 : String)
    (h1 : env.lookup_device_class address = Except.error e1)
    (h2 : env.find_service address = Except.error e2) :
    (getDeviceInfo env address).cls = "Unknown" ∧
    (getDeviceInfo env address).services = [] := by
  simp [getDeviceInfo, h1, h2]

/-- Witness for C7 at a concrete failing environment. -/
theorem C7_get_device_info_witness :
    (envErr.lookup_device_class "AA:BB:CC:DD:EE:FF" =
        Except.error "Error" ∧
      envErr.find_service "AA:BB:CC:DD:EE:FF" = Except.error "Error") ∧
    ((getDeviceInfo envErr "AA:BB:CC:DD:EE:FF").cls = "Unknown" ∧
      (getDeviceInfo envErr "AA:BB:CC:DD:EE:FF").services = []) :=
  ⟨⟨rfl, rfl⟩, C7_get_device_info_degraded envErr "AA:BB:CC:DD:EE:FF"
    "Error" "Error" rfl rfl⟩

/-- Claim C8: decode_device_class is pure, deterministic and total: it
leaves the scanner state unchanged, its string result does not depend on
the scanner state, equal inputs yield equal outputs, and a string result
exists for every input. -/
theorem C8_decode_device_class_pure (s1 s2 : Scanner)
    (raw raw2 : Option Nat) (heq : raw = raw2) :
    (s1.decode_device_class raw).2 = s1 ∧
    (s1.decode_device_class raw).1 = (s2.decode_device_class raw2).1 ∧
    ∃ out : String, (s1.decode_device_class raw).1 = out := by
  subst heq
  exact ⟨rfl, rfl, ⟨_, rfl⟩⟩

/-- Witness for C8 at concrete states and input. -/
theorem C8_decode_device_class_witness :
    ((some 256 : Option Nat) = some 256) ∧
    (((initScanner 5 true).decode_device_class (some 256)).2 =
        initScanner 5 true ∧
      ((initScanner 5 true).decode_device_class (some 256)).1 =
        (initScannerDefault.decode_device_class (some 256)).1 ∧
      ∃ out : String,
        ((initScanner 5 true).decode_device_class (some 256)).1 = out) :=
  ⟨rfl, C8_decode_device_class_pure (initScanner 5 true) initScannerDefault
    (some 256) (some 256) rfl⟩

/-- Claim C10: a newly constructed scanner is idle: empty device mapping,
scanning flag off, constructor arguments stored unchanged; construction
with no arguments uses the default configuration values. -/
theorem C10_initial_state (d : Nat) (l : Bool) :
    (initScanner d l).discovered_devices = [] ∧
    (initScanner d l).scanning = false ∧
    (initScanner d l).scan_duration = d ∧
    (initScanner d l).lookup_names = l ∧
    initScannerDefault = initScanner defaultScanDuration defaultLookupNames :=
  ⟨rfl, rfl, rfl, rfl, rfl⟩

/-- Claim C4 (amended): starting from an empty device mapping, a successful
scan whose discovery returns exactly one pair at "AA:BB:CC:DD:EE:FF" with
class lookup 0x0100 leaves exactly one entry, keyed by that address, with
type "Classic", the discovered name, and class label "Computer". -/
theorem C4_scan_single_device_fresh (env : BTEnv) (s : Scanner)
    (name : String) (hpre : s.discovered_devices = [])
    (hdisc : env.discover_devices s.scan_duration s.lookup_names =
      Except.ok [("AA:BB:CC:DD:EE:FF", name)])
    (hcls : env.lookup_device_class "AA:BB:CC:DD:EE:FF" =
      Except.ok (some 0x0100)) :
    ∃ d : Device,
      (scanClassic env s).1.discovered_devices =
        [("AA:BB:CC:DD:EE:FF", d)] ∧
      d.type = "Classic" ∧ d.name = name ∧ d.deviceClass = "Computer" := by
  refine ⟨{ name := name
            address := "AA:BB:CC:DD:EE:FF"
            type := "Classic"
            deviceClass := (getDeviceInfo env "AA:BB:CC:DD:EE:FF").cls
            services := (getDeviceInfo env "AA:BB:CC:DD:EE:FF").services },
    ?_, rfl, rfl, ?_⟩
  · simp [scanClassic, hdisc, hpre, insertDevice]
  · simp [getDeviceInfo, hcls, decodeDeviceClass]

/-- Witness for C4 (amended) at a concrete one-device environment. -/
theorem C4_scan_single_device_witness :
    ((initScanner 5 true).discovered_devices = [] ∧
      envOneDevice.discover_devices (initScanner 5 true).scan_duration
        (initScanner 5 true).lookup_names =
        Except.ok [("AA:BB:CC:DD:EE:FF", "Test Device")] ∧
      envOneDevice.lookup_device_class "AA:BB:CC:DD:EE:FF" =
        Except.ok (some 0x0100)) ∧
    (∃ d : Device,
      (scanClassic envOneDevice (initScanner 5 true)).1.discovered_devices =
        [("AA:BB:CC:DD:EE:FF", d)] ∧
      d.type = "Classic" ∧ d.name = "Test Device" ∧
      d.deviceClass = "Computer") :=
  ⟨⟨rfl, rfl, rfl⟩, C4_scan_single_device_fresh envOneDevice
    (initScanner 5 true) "Test Device" rfl rfl rfl⟩

/-- Counterexample to C4 as stated: on a scanner that already holds a device
at another address, the same successful one-device scan leaves two entries,
not exactly one, so the claim fails without the empty-pre-state
assumption. -/
theorem C4_counterexample_prior_entry :
    envOneDevice.discover_devices scannerWithOld.scan_duration
        scannerWithOld.lookup_names =
      Except.ok [("AA:BB:CC:DD:EE:FF", "Test Device")] ∧
    envOneDevice.lookup_device_class "AA:BB:CC:DD:EE:FF" =
      Except.ok (some 0x0100) ∧
    (scanClassic envOneDevice scannerWithOld).1.discovered_devices.length ≠
      1 :=
  ⟨rfl, rfl, by decide⟩

/-- Claim C6: for every integer input whose major device class byte is not
in the fixed table, decodeDeviceClass returns a string containing the
substring "Unknown" and never the empty string. -/
theorem C6_unmapped_contains_unknown (raw : Nat)
    (h0 : raw / 256 % 256 ≠ 0) (h1 : raw / 256 % 256 ≠ 1)
    (h2 : raw / 256 % 256 ≠ 2) (h4 : raw / 256 % 256 ≠ 4) :
    (∃ p q : String, decodeDeviceClass (some raw) = p ++ "Unknown" ++ q) ∧
    decodeDeviceClass (some raw) ≠ "" := by
  have hval : decodeDeviceClass (some raw) =
      "Unknown (" ++ toString raw ++ ")" := by
    simp [decodeDeviceClass, h0, h1, h2, h4]
  constructor
  · refine ⟨"", " (" ++ toString raw ++ ")", ?_⟩
    rw [hval, String.empty_append]
    have hlit : "Unknown (" = "Unknown" ++ " (" := rfl
    rw [hlit]
    simp only [String.append_assoc]
  · rw [hval]
    intro hc
    have hlen := congrArg String.length hc
    rw [String.length_append, String.length_append] at hlen
    have h9 : "Unknown (".length = 9 := rfl
    have hE : "".length = 0 := rfl
    omega

/-- Witness for C6 at the concrete unmapped input 0xFF00. -/
theorem C6_unmapped_witness :
    (65280 / 256 % 256 ≠ 0 ∧ 65280 / 256 % 256 ≠ 1 ∧
      65280 / 256 % 256 ≠ 2 ∧ 65280 / 256 % 256 ≠ 4) ∧
    ((∃ p q : String,
        decodeDeviceClass (some 65280) = p ++ "Unknown" ++ q) ∧
      decodeDeviceClass (some 65280) ≠ "") :=
  ⟨by decide, C6_unmapped_contains_unknown 65280 (by decide) (by decide)
    (by decide) (by decide)⟩

/-- A sample Classic-type device record. -/
def deviceClassicSample : Device where
  name := "Classic Device"
  address := "AA:BB:CC:DD:EE:FF"
  type := "Classic"
  deviceClass := "Computer"
  services := []

/-- A sample BLE-type device record. -/
def deviceBLESample : Device where
  name := "BLE Device"
  address := "11:22:33:44:55:66"
  type := "BLE"
  deviceClass := "Unknown"
  services := []

/-- A scanner holding one Classic and one BLE device. -/
def scannerTwoTypes : Scanner where
  scan_duration := 5
  lookup_names := true
  discovered_devices :=
    [("AA:BB:CC:DD:EE:FF", deviceClassicSample),
     ("11:22:33:44:55:66", deviceBLESample)]
  scanning := false

/-- Claim C9: displayStatistics on an empty device mapping emits exactly the
empty-state notice; on a mapping with one Classic and one BLE entry it
emits a total device count of 2. -/
theorem C9_display_statistics_counts (s0 s : Scanner) (a b : String)
    (da db : Device) (h0 : s0.discovered_devices = [])
    (hs : s.discovered_devices = [(a, da), (b, db)])
    (hta : da.type = "Classic") (htb : db.type = "BLE") :
    displayStatistics s0 = [Notice.statsNoDevices] ∧
    Notice.statsTotal 2 ∈ displayStatistics s := by
  constructor
  · simp [displayStatistics, h0]
  · simp [displayStatistics, hs]

/-- Witness for C9 at concrete empty and two-device scanners. -/
theorem C9_display_statistics_witness :
    ((initScanner 5 true).discovered_devices = [] ∧
      scannerTwoTypes.discovered_devices =
        [("AA:BB:CC:DD:EE:FF", deviceClassicSample),
         ("11:22:33:44:55:66", deviceBLESample)] ∧
      deviceClassicSample.type = "Classic" ∧
      deviceBLESample.type = "BLE") ∧
    (displayStatistics (initScanner 5 true) = [Notice.statsNoDevices] ∧
      Notice.statsTotal 2 ∈ displayStatistics scannerTwoTypes) :=
  ⟨⟨rfl, rfl, rfl, rfl⟩, C9_display_statistics_counts (initScanner 5 true)
    scannerTwoTypes "AA:BB:CC:DD:EE:FF" "11:22:33:44:55:66"
    deviceClassicSample deviceBLESample rfl rfl rfl rfl⟩
